import Mathlib

/-!
Verification of the class-based view routing core of the `coaster`
repository, as exercised by `tests/test_views_classview.py`.

The routing core (`coaster.views`: `route`, `ClassView`, `reroute`,
`add_route_for`, `init_app`, `render_with`, `requestform`) is not part of
the shipped sources; it is modelled here from the specification
(route registry, reroute resolver, class view compiler, app binder and
dispatch facade), and the concrete view classes of the test file
(`IndexView`, `DocumentView`, `BaseView`, `SubView`) are embedded on top
of that model.
-/

namespace Coaster

/-- HTTP verbs used by the routing layer (GET default, POST for forms). -/
inductive Verb where
  | GET
  | POST
deriving DecidableEq, Repr

/-- Modelled from the spec: a RouteSpec is one (path, HTTP-methods)
binding attached to a view method (spec §3: RouteSpec).  Paths are either
absolute (leading slash) or relative to the class's URL prefix. -/
structure RouteSpec where
  path : String
  verbs : List Verb
deriving DecidableEq, Repr

/-- A `@route(path)` annotation with Flask's default methods (GET). -/
def rsGET (p : String) : RouteSpec := ⟨p, [Verb.GET]⟩

/-- A `@route(path, methods=['POST'])` annotation. -/
def rsPOST (p : String) : RouteSpec := ⟨p, [Verb.POST]⟩

/-- A stored `ViewDocument` row: the fields the tests touch. -/
structure Doc where
  name : String
  title : String
deriving DecidableEq, Repr

/-- The database: a list of `ViewDocument` rows. -/
abbrev Store := List Doc

/-- Whether the first string is a leading segment of the second,
computed on the underlying character lists so the kernel can evaluate. -/
def strStartsWith (s p : String) : Bool := p.data.isPrefixOf s.data

/-- Whether the first string ends with the second, computed on the
underlying character lists so the kernel can evaluate. -/
def strEndsWith (s p : String) : Bool :=
  p.data.reverse.isPrefixOf s.data.reverse

/-- A response body: plain text or a JSON object (association list). -/
inductive Body where
  | text (s : String)
  | json (fields : List (String × String))
deriving DecidableEq, Repr

/-- An HTTP response as the tests observe it: status code and body. -/
structure Response where
  status : Nat
  body : Body
deriving DecidableEq, Repr

/-- An incoming request: verb, path, and posted form data. -/
structure Request where
  verb : Verb
  path : String
  form : List (String × String)
deriving Repr

/-- What a view method produces: a successful body, or the typed
not-found signal (`first_or_404` raising 404) which the framework turns
into a 404 response.  The store is threaded for mutating handlers. -/
inductive HandlerResult where
  | ok (body : Body)
  | notFound
deriving DecidableEq, Repr

/-- A view method implementation: captured path arguments, the request,
and the store, producing a result and the (possibly updated) store. -/
abbrev Handler :=
  List (String × String) → Request → Store → HandlerResult × Store

/-- Modelled from the spec: a method declared in a class body, with its
stacked route annotations and optional reroute marker (spec §3:
ViewMethod; §4.2: Reroute Resolver). -/
structure MethodDecl where
  name : String
  routes : List RouteSpec
  rerouted : Bool
  handler : Handler

/-- Modelled from the spec: a class descriptor carrying its own locally
declared methods (spec §9: the ancestor chain is an explicit input). -/
structure ClassDecl where
  methods : List MethodDecl

/-- A resolved view method: its effective RouteSpecs and implementation. -/
structure ViewMethod where
  specs : List RouteSpec
  handler : Handler

/-- Modelled from the spec: the per-class mapping from method name to
resolved ViewMethod (spec §3: ViewClassTable), kept in insertion order. -/
abbrev Table := List (String × ViewMethod)

/-- Replace the entry for `n` in the table, preserving position. -/
def tableSet (t : Table) (n : String) (vm : ViewMethod) : Table :=
  if t.any (fun e => e.1 == n) then
    t.map (fun e => if e.1 == n then (n, vm) else e)
  else
    t ++ [(n, vm)]

/-- Remove the entry for `n` from the table (no-op when absent). -/
def tableRemove (t : Table) (n : String) : Table :=
  t.filter (fun e => e.1 != n)

/-- Look up the entry for `n` in the table. -/
def tableGet (t : Table) (n : String) : Option ViewMethod :=
  (t.find? (fun e => e.1 == n)).map (fun e => e.2)

/-- Modelled from the spec: merge one class's local declarations over the
table accumulated from its ancestors (spec §4.3 step 2): a method with a
reroute marker inherits the ancestor's RouteSpecs and appends its own; a
method with new RouteSpecs replaces the ancestor entry; a method with
neither is removed from the table (unrouted by omission). -/
def mergeMethod (t : Table) (m : MethodDecl) : Table :=
  if m.rerouted then
    let anc := ((tableGet t m.name).map (fun vm => vm.specs)).getD []
    tableSet t m.name ⟨anc ++ m.routes, m.handler⟩
  else if m.routes.isEmpty then
    tableRemove t m.name
  else
    tableSet t m.name ⟨m.routes, m.handler⟩

/-- Merge a whole class's local declarations into the table. -/
def mergeClass (t : Table) (c : ClassDecl) : Table :=
  c.methods.foldl mergeMethod t

/-- Modelled from the spec: the Class View Compiler (spec §4.3): walk the
ancestor chain base-to-derived, merging each class's locally declared
routed methods into one effective route table. -/
def compileTable (classes : List ClassDecl) : Table :=
  classes.foldl mergeClass []

/-- Resolve a method implementation by name through the class chain,
most-derived class winning, as Python attribute lookup would. -/
def resolveMethod (classes : List ClassDecl) (n : String) : Option Handler :=
  ((classes.reverse.findSome?
    (fun c => c.methods.find? (fun m => m.name == n))).map
    (fun m => m.handler))

/-- Modelled from the spec: `add_route_for` (spec §4.3 step 3): add a
RouteSpec to an already-defined method by name, reinstating or extending
its reachability; fails fast with an attribute-resolution error when the
named method does not exist on the class. -/
def addRouteFor (classes : List ClassDecl) (t : Table) (n : String)
    (p : String) : Except String Table :=
  match resolveMethod classes n with
  | none => Except.error "AttributeError"
  | some h =>
    match tableGet t n with
    | some vm => Except.ok (tableSet t n ⟨vm.specs ++ [rsGET p], vm.handler⟩)
    | none => Except.ok (t ++ [(n, ⟨[rsGET p], h⟩)])

/-- Modelled from the spec: bind-time path resolution (spec §4.1): an
absolute path (leading slash) is registered verbatim, a relative path is
joined to the class's URL prefix. -/
def joinPath (pfx : String) (p : String) : String :=
  if strStartsWith p "/" then p
  else if p.data.isEmpty then pfx
  else if strEndsWith pfx "/" then pfx ++ p
  else pfx ++ "/" ++ p

/-- Modelled from the spec: a RouteBinding: one (path, methods, handler)
tuple registered with the dispatcher (spec §3: RouteBinding). -/
structure Binding where
  path : String
  verbs : List Verb
  methodName : String
  handler : Handler

/-- Modelled from the spec: the App Binder (spec §4.4): for each routed
method, for each of its RouteSpecs, compute the absolute path and
register it against the dispatcher. -/
def bindTable (pfx : String) (t : Table) : List Binding :=
  t.flatMap (fun e =>
    e.2.specs.map (fun s => ⟨joinPath pfx s.path, s.verbs, e.1, e.2.handler⟩))

/-- Split a character list at every slash. -/
def splitSlash : List Char → List (List Char)
  | [] => [[]]
  | c :: cs =>
    let r := splitSlash cs
    if c = '/' then [] :: r
    else
      match r with
      | [] => [[c]]
      | h :: t => (c :: h) :: t

/-- Split a path into its slash-separated segments. -/
def pathSegs (s : String) : List String :=
  (splitSlash s.data).map (fun l => String.mk l)

/-- Whether a route segment is a capture pattern such as `<name>`. -/
def isCapture (s : String) : Bool :=
  s.data.head? == some '<' && s.data.getLast? == some '>'

/-- The variable name inside a capture pattern: `<name>` yields `name`. -/
def captureName (s : String) : String :=
  String.mk ((s.data.drop 1).dropLast)

/-- Match route-pattern segments against request segments, capturing
`<name>`-style variables. -/
def segMatch : List String → List String → Option (List (String × String))
  | [], [] => some []
  | p :: ps, a :: as =>
    if isCapture p then
      (segMatch ps as).map (fun r => (captureName p, a) :: r)
    else if p == a then segMatch ps as
    else none
  | _, _ => none

/-- Find the first registered binding matching the request path whose
methods admit the verb, with the captured path arguments. -/
def findRoute (bs : List Binding) (v : Verb) (p : String) :
    Option (Binding × List (String × String)) :=
  match bs with
  | [] => none
  | b :: rest =>
    match segMatch (pathSegs b.path) (pathSegs p) with
    | some args =>
      if b.verbs.contains v then some (b, args) else findRoute rest v p
    | none => findRoute rest v p

/-- Modelled from the spec: the Dispatch Facade (spec §4.5): resolve the
request to a bound method and invoke it; "no route matched" and the
handler's typed not-found signal both surface as the framework's 404. -/
def dispatch (bs : List Binding) (req : Request) (store : Store) :
    Response × Store :=
  match findRoute bs req.verb req.path with
  | none => (⟨404, Body.text "not found"⟩, store)
  | some (b, args) =>
    match b.handler args req store with
    | (HandlerResult.ok body, s) => (⟨200, body⟩, s)
    | (HandlerResult.notFound, s) => (⟨404, Body.text "not found"⟩, s)

/-- A view method returning a fixed string, e.g. `return 'index'`. -/
def constHandler (s : String) : Handler :=
  fun _ _ store => (HandlerResult.ok (Body.text s), store)

/-- The read fields granted by `ViewDocument.__roles__['all']['read']`. -/
def rolesAllRead : List String := ["name", "title"]

/-- Access one readable field of a `ViewDocument` by name. -/
def docField (d : Doc) (f : String) : String :=
  if f == "name" then d.name
  else if f == "title" then d.title
  else ""

/-- `document.current_access()`: the fields the 'all' role may read. -/
def currentAccess (d : Doc) : List (String × String) :=
  rolesAllRead.map (fun f => (f, docField d f))

/-- `DocumentView.view`: `filter_by(name=name).first_or_404()` then
`render_with(json=True)` over `current_access()`. -/
def viewHandler : Handler := fun args _ store =>
  match store.find? (fun d => d.name == ((args.lookup "name").getD "")) with
  | some d => (HandlerResult.ok (Body.json (currentAccess d)), store)
  | none => (HandlerResult.notFound, store)

/-- `DocumentView.edit`: `first_or_404()` then set the document's title
from the posted form field (`requestform('title')`) and return 'edited!'. -/
def editHandler : Handler := fun args req store =>
  let n := (args.lookup "name").getD ""
  match store.find? (fun d => d.name == n) with
  | some _ =>
    let t := (req.form.lookup "title").getD ""
    (HandlerResult.ok (Body.text "edited!"),
     store.map (fun d => if d.name == n then ⟨d.name, t⟩ else d))
  | none => (HandlerResult.notFound, store)

/-- `IndexView` from the test file: `index` at `''`, `page` at `'page'`. -/
def IndexView : ClassDecl :=
  ⟨[⟨"index", [rsGET ""], false, constHandler "index"⟩,
    ⟨"page", [rsGET "page"], false, constHandler "page"⟩]⟩

/-- `DocumentView` from the test file: `view` at `''` (GET), `edit` with
three stacked POST routes (`'edit'`, `'/edit/<name>'`, `''`). -/
def DocumentView : ClassDecl :=
  ⟨[⟨"view", [rsGET ""], false, viewHandler⟩,
    ⟨"edit", [rsPOST "edit", rsPOST "/edit/<name>", rsPOST ""], false,
      editHandler⟩]⟩

/-- `BaseView` from the test file: five routed methods plus the
never-routed `latent_route`. -/
def BaseView : ClassDecl :=
  ⟨[⟨"first", [rsGET ""], false, constHandler "first"⟩,
    ⟨"second", [rsGET "second"], false, constHandler "second"⟩,
    ⟨"third", [rsGET "third"], false, constHandler "third"⟩,
    ⟨"inherited", [rsGET "inherited"], false, constHandler "inherited"⟩,
    ⟨"also_inherited", [rsGET "also-inherited"], false,
      constHandler "also_inherited"⟩,
    ⟨"latent_route", [], false, constHandler "latent-route"⟩]⟩

/-- `SubView` from the test file: `first` rerouted with no new routes,
`second` rerouted with an extra `@route('2')`, `third` redefined with
neither reroute nor routes. -/
def SubView : ClassDecl :=
  ⟨[⟨"first", [], true, constHandler "rerouted-first"⟩,
    ⟨"second", [rsGET "2"], true, constHandler "rerouted-second"⟩,
    ⟨"third", [], false, constHandler "removed-third"⟩]⟩

/-- The ancestor chain of `SubView`, base to derived. -/
def subChain : List ClassDecl := [BaseView, SubView]

/-- `SubView`'s table after the three `add_route_for` calls of the test
file (each of which succeeds). -/
def subViewTableE : Except String Table :=
  (addRouteFor subChain (compileTable subChain) "also_inherited"
      "/inherited").bind
    (fun t => (addRouteFor subChain t "also_inherited" "inherited2").bind
      (fun t => addRouteFor subChain t "latent_route" "latent"))

/-- The resolved `SubView` table (empty only if a call failed). -/
def subViewTable : Table := subViewTableE.toOption.getD []

/-- The whole application's routing table, in the order the test file
mounts the view classes: `IndexView` at `/`, `DocumentView` at
`/doc/<name>`, `SubView` at `/subclasstest`. -/
def app : List Binding :=
  bindTable "/" (compileTable [IndexView]) ++
    bindTable "/doc/<name>" (compileTable [DocumentView]) ++
    bindTable "/subclasstest" subViewTable

/-- The error raised by a table-building step, if any (tables hold
handler functions, so only the error side is comparable). -/
def stepError (e : Except String Table) : Option String :=
  match e with
  | Except.error s => some s
  | Except.ok _ => none

/-- The route paths a table-building step would register for a method
name: observable image of a step for stating that no route was added. -/
def stepPaths (e : Except String Table) (n : String) : Option (List String) :=
  match e with
  | Except.error _ => none
  | Except.ok t => some ((((tableGet t n).map
      (fun vm => vm.specs)).getD []).map (fun s => s.path))

/-- A GET request with no form data, as `client.get(path)` issues. -/
def getReq (p : String) : Request := ⟨Verb.GET, p, []⟩

/-- A POST request carrying a `title` form field, as
`client.post(path, data={'title': t})` issues. -/
def postReq (p : String) (t : String) : Request :=
  ⟨Verb.POST, p, [("title", t)]⟩

/-- The registered route paths of a method in a table, for stating that
a method's effective paths are exactly the expected ones. -/
def methodPaths (t : Table) (n : String) : Option (List String) :=
  (tableGet t n).map (fun vm => vm.specs.map (fun s => s.path))

/-- The JSON field of a response body, if the body is JSON. -/
def jsonField (b : Body) (f : String) : Option String :=
  match b with
  | Body.json l => l.lookup f
  | Body.text _ => none

end Coaster

namespace Coaster

/-- C1: SubView.first reroutes BaseView.first with no new route
annotations; the effective route table keeps the base's exact path `''`,
and a GET to `/subclasstest` returns the subclass's output
'rerouted-first' with status 200, not the base's 'first'. -/
theorem C1_reroute_preserves_path_dispatches_to_subclass :
    methodPaths subViewTable "first" = some [""] ∧
    (dispatch app (getReq "/subclasstest") []).1.status = 200 ∧
    (dispatch app (getReq "/subclasstest") []).1.body
      = Body.text "rerouted-first" ∧
    (dispatch app (getReq "/subclasstest") []).1.body
      ≠ Body.text "first" := by decide

/-- C2: SubView.third redefines BaseView.third (routed at 'third')
without reroute and without route annotations, so the method is removed
from the effective route table: GET `/subclasstest/third` returns 404
and the body is the output of neither implementation. -/
theorem C2_override_without_reroute_is_unrouted :
    methodPaths subViewTable "third" = none ∧
    (dispatch app (getReq "/subclasstest/third") []).1.status = 404 ∧
    (dispatch app (getReq "/subclasstest/third") []).1.body
      ≠ Body.text "third" ∧
    (dispatch app (getReq "/subclasstest/third") []).1.body
      ≠ Body.text "removed-third" := by decide

/-- C3: SubView.second stacks `@route('2')` on `@BaseView.second.reroute`;
both the inherited path `/subclasstest/second` and the new path
`/subclasstest/2` dispatch to the overriding implementation, each
returning 'rerouted-second' with status 200. -/
theorem C3_reroute_with_new_route_serves_both_paths :
    methodPaths subViewTable "second" = some ["second", "2"] ∧
    (dispatch app (getReq "/subclasstest/second") []).1
      = ⟨200, Body.text "rerouted-second"⟩ ∧
    (dispatch app (getReq "/subclasstest/2") []).1
      = ⟨200, Body.text "rerouted-second"⟩ := by decide

/-- C4: after `add_route_for('also_inherited', '/inherited')`,
`('also_inherited', 'inherited2')` and `('latent_route', 'latent')`, the
inherited routed method still answers at its original path
`/subclasstest/also-inherited` and at both added paths, and the
previously never-routed `latent_route` answers at `/subclasstest/latent`. -/
theorem C4_add_route_for_extends_and_reinstates :
    (dispatch app (getReq "/subclasstest/also-inherited") []).1
      = ⟨200, Body.text "also_inherited"⟩ ∧
    (dispatch app (getReq "/subclasstest/inherited2") []).1
      = ⟨200, Body.text "also_inherited"⟩ ∧
    (dispatch app (getReq "/inherited") []).1
      = ⟨200, Body.text "also_inherited"⟩ ∧
    (dispatch app (getReq "/subclasstest/latent") []).1
      = ⟨200, Body.text "latent-route"⟩ := by decide

/-- C5: `add_route_for` with a method name that does not resolve on the
class raises AttributeError at the call itself (the step returns the
error rather than a table, so no route is registered), and the app never
answers at the would-be path `/missing`. -/
theorem C5_add_route_for_missing_method_fails_fast :
    stepError
        (addRouteFor subChain subViewTable "this_method_does_not_exist"
          "/missing")
      = some "AttributeError" ∧
    stepPaths
        (addRouteFor subChain subViewTable "this_method_does_not_exist"
          "/missing")
        "this_method_does_not_exist"
      = none ∧
    (dispatch app (getReq "/missing") []).1.status = 404 := by decide

/-- C6: DocumentView.edit, declared with three route annotations, answers
POST at `/doc/test1/edit`, `/edit/test1` and `/doc/test1` with the same
behaviour for every posted title (body 'edited!', title updated in the
store), and at the shared path `/doc/test1` a GET dispatches to `view`
while a POST dispatches to `edit`. -/
theorem C6_fanout_and_verb_sharing_dispatch (t : String) :
    dispatch app (postReq "/doc/test1/edit" t) [⟨"test1", "Test"⟩]
      = (⟨200, Body.text "edited!"⟩, [⟨"test1", t⟩]) ∧
    dispatch app (postReq "/edit/test1" t) [⟨"test1", "Test"⟩]
      = (⟨200, Body.text "edited!"⟩, [⟨"test1", t⟩]) ∧
    dispatch app (postReq "/doc/test1" t) [⟨"test1", "Test"⟩]
      = (⟨200, Body.text "edited!"⟩, [⟨"test1", t⟩]) ∧
    ((findRoute app Verb.GET "/doc/test1").map
        (fun r => r.1.methodName)) = some "view" ∧
    ((findRoute app Verb.POST "/doc/test1").map
        (fun r => r.1.methodName)) = some "edit" := by
  refine ⟨rfl, rfl, rfl, rfl, rfl⟩

/-- C6 witness: the dispatch equalities instantiated at the test file's
first posted title, 'Edit 1'. -/
theorem C6_fanout_and_verb_sharing_dispatch_witness :
    dispatch app (postReq "/doc/test1/edit" "Edit 1") [⟨"test1", "Test"⟩]
      = (⟨200, Body.text "edited!"⟩, [⟨"test1", "Edit 1"⟩]) :=
  (C6_fanout_and_verb_sharing_dispatch "Edit 1").1

/-- C7: BaseView.inherited is inherited by SubView without override,
reroute, or added routes, and remains reachable at its original path:
GET `/subclasstest/inherited` returns 'inherited' with status 200. -/
theorem C7_inherited_method_keeps_path_and_output :
    (dispatch app (getReq "/subclasstest/inherited") []).1
      = ⟨200, Body.text "inherited"⟩ := by decide

/-- C8: bind-time path resolution: any path with a leading slash is
registered verbatim regardless of the prefix, while relative paths are
joined to the class's prefix: IndexView under `/` serves GET `/` as
'index' and GET `/page` as 'page', and DocumentView's absolute route
`/edit/<name>` is bound verbatim despite the prefix `/doc/<name>` and
answers there. -/
theorem C8_absolute_verbatim_relative_joined :
    (∀ pfx p, strStartsWith p "/" = true → joinPath pfx p = p) ∧
    joinPath "/" "" = "/" ∧
    joinPath "/" "page" = "/page" ∧
    (dispatch app (getReq "/") []).1 = ⟨200, Body.text "index"⟩ ∧
    (dispatch app (getReq "/page") []).1 = ⟨200, Body.text "page"⟩ ∧
    (app.map (fun b => b.path)).contains "/edit/<name>" = true ∧
    dispatch app (postReq "/edit/test1" "Edit 2") [⟨"test1", "Test"⟩]
      = (⟨200, Body.text "edited!"⟩, [⟨"test1", "Edit 2"⟩]) := by
  refine ⟨fun pfx p h => ?_, by decide, by decide, by decide, by decide,
    by decide, by decide⟩
  simp [joinPath, h]

/-- C8 witness: the theorem instantiated at DocumentView's absolute route
`/edit/<name>` under the prefix `/doc/<name>`. -/
theorem C8_absolute_verbatim_relative_joined_witness :
    joinPath "/doc/<name>" "/edit/<name>" = "/edit/<name>" :=
  C8_absolute_verbatim_relative_joined.1 "/doc/<name>" "/edit/<name>"
    (by decide)

/-- C9: GET `/doc/this-doc-does-not-exist` on an empty store matches the
routed `view` handler, whose `first_or_404` raises the typed not-found
signal; the framework converts it into a 404 response, and the routing
core does not reinterpret it into any other outcome. -/
theorem C9_handler_not_found_passes_through_as_404 :
    ((findRoute app Verb.GET "/doc/this-doc-does-not-exist").map
        (fun r => r.1.methodName)) = some "view" ∧
    (viewHandler [("name", "this-doc-does-not-exist")]
        (getReq "/doc/this-doc-does-not-exist") []).1
      = HandlerResult.notFound ∧
    (dispatch app (getReq "/doc/this-doc-does-not-exist") []).1.status
      = 404 := by decide

/-- Helper for C10: splitting a slash-free character list yields the
single segment. -/
theorem splitSlash_no_slash (l : List Char) (h : ∀ c ∈ l, c ≠ '/') :
    splitSlash l = [l] := by
  induction l with
  | nil => rfl
  | cons c cs ih =>
    have hc : c ≠ '/' := h c (List.mem_cons_self c cs)
    have hcs : ∀ x ∈ cs, x ≠ '/' := fun x hx => h x (List.mem_cons_of_mem c hx)
    simp [splitSlash, hc, ih hcs]

/-- Helper for C10: the segments of `/doc/` followed by a slash-free
document name. -/
theorem pathSegs_doc_concat (n : String) (h : ∀ c ∈ n.data, c ≠ '/') :
    pathSegs ("/doc/" ++ n) = ["", "doc", n] := by
  obtain ⟨l⟩ := n
  have hl : ∀ c ∈ l, c ≠ '/' := h
  show (splitSlash ('/' :: 'd' :: 'o' :: 'c' :: '/' :: l)).map String.mk
      = ["", "doc", ⟨l⟩]
  simp [splitSlash, splitSlash_no_slash l hl]

/-- Route lookup over precomputed request segments, for reasoning about
requests whose path is only symbolically known. -/
def findRouteSegs (bs : List Binding) (v : Verb) (segs : List String) :
    Option (Binding × List (String × String)) :=
  match bs with
  | [] => none
  | b :: rest =>
    match segMatch (pathSegs b.path) segs with
    | some args =>
      if b.verbs.contains v then some (b, args) else findRouteSegs rest v segs
    | none => findRouteSegs rest v segs

/-- Helper for C10: `findRoute` computes the request's segments once. -/
theorem findRoute_eq_segs (bs : List Binding) (v : Verb) (p : String) :
    findRoute bs v p = findRouteSegs bs v (pathSegs p) := by
  induction bs with
  | nil => rfl
  | cons b rest ih =>
    simp only [findRoute, findRouteSegs]
    cases segMatch (pathSegs b.path) (pathSegs p) with
    | none => exact ih
    | some args => cases b.verbs.contains v <;> simp [ih]

/-- C10: for every ViewDocument stored with (slash-free) name n and any
title t, GET `'/doc/' + n` returns status 200 and a JSON body whose
'name' field is n and whose 'title' field is t — exactly the fields
granted by `ViewDocument.__roles__['all']['read']`. -/
theorem C10_render_with_json_exposes_role_fields (n t : String)
    (h : ∀ c ∈ n.data, c ≠ '/') :
    (dispatch app (getReq ("/doc/" ++ n)) [⟨n, t⟩]).1.status = 200 ∧
    jsonField (dispatch app (getReq ("/doc/" ++ n)) [⟨n, t⟩]).1.body
        "name" = some n ∧
    jsonField (dispatch app (getReq ("/doc/" ++ n)) [⟨n, t⟩]).1.body
        "title" = some t ∧
    ((dispatch app (getReq ("/doc/" ++ n)) [⟨n, t⟩]).1.body
      = Body.json (currentAccess ⟨n, t⟩)) := by
  have hfind : findRoute app Verb.GET ("/doc/" ++ n)
      = some (⟨"/doc/<name>", [Verb.GET], "view", viewHandler⟩,
          [("name", n)]) := by
    rw [findRoute_eq_segs, pathSegs_doc_concat n h]
    rfl
  have hdisp : dispatch app (getReq ("/doc/" ++ n)) [⟨n, t⟩]
      = (⟨200, Body.json (currentAccess ⟨n, t⟩)⟩, [⟨n, t⟩]) := by
    simp only [dispatch, getReq]
    rw [hfind]
    simp [viewHandler]
  rw [hdisp]
  exact ⟨rfl, rfl, rfl, rfl⟩

/-- C10 witness: the theorem instantiated at the test file's stored
document, name 'test1' and title 'Test'. -/
theorem C10_render_with_json_exposes_role_fields_witness :
    jsonField
        (dispatch app (getReq ("/doc/" ++ "test1"))
          [⟨"test1", "Test"⟩]).1.body
        "title" = some "Test" :=
  (C10_render_with_json_exposes_role_fields "test1" "Test"
    (by decide)).2.2.1

end Coaster
